import Mathlib

/-!
Verification of the background-removal command-line filter
(`scripts/remove-bg.py`).

The program reads all bytes from standard input, rejects empty input with a
fixed diagnostic and exit status 1, otherwise calls an external background
removal capability `remove` inside a try/except block, writes the returned
buffer to standard output on success (exit status 0), and on any caught error
writes `"Error: <message>\n"` to the diagnostic stream and exits with status 1.

The external capability is modelled as an oracle of type
`Bytes → Except String Bytes`: `Except.ok out` models a normal return of the
buffer `out`, `Except.error e` models a raised exception whose string form is
`e`.  The driver itself is the code under verification.
-/

instance {ε α : Type} [DecidableEq ε] [DecidableEq α] : DecidableEq (Except ε α) :=
  fun a b =>
    match a, b with
    | Except.ok x, Except.ok y =>
        if h : x = y then isTrue (by rw [h]) else isFalse (by simp [h])
    | Except.ok _, Except.error _ => isFalse (by simp)
    | Except.error _, Except.ok _ => isFalse (by simp)
    | Except.error x, Except.error y =>
        if h : x = y then isTrue (by rw [h]) else isFalse (by simp [h])

namespace RemoveBg

/-- A byte buffer: a list of byte values. -/
abbrev Bytes := List Nat

/-- The fixed diagnostic emitted for empty input
(`sys.stderr.write("Error: No input data received\n")`). -/
def errMsgEmpty : String := "Error: No input data received\n"

/-- The diagnostic line built from a caught exception's description
(`f"Error: {str(e)}\n"`). -/
def errLine (e : String) : String := "Error: " ++ (e ++ "\n")

/-- Observable outcome of one run of the filter: the bytes written to the
output stream, the text written to the diagnostic stream, the process exit
status, and whether the external removal capability was invoked. -/
structure RunResult where
  stdout : Bytes
  stderr : String
  exitCode : Nat
  removeCalled : Bool
deriving Repr, DecidableEq

/-- The filter driver `main` of `scripts/remove-bg.py`, embedded over an
oracle `remove` for the external capability.  Mirrors the source:
read stdin; if empty, write the fixed diagnostic and exit 1; otherwise call
`remove` inside try/except, write its result to stdout (exit 0), or on a
caught exception write `"Error: <message>\n"` to stderr and exit 1. -/
def main (stdin : Bytes) (remove : Bytes → Except String Bytes) : RunResult :=
  if stdin.isEmpty then
    { stdout := [], stderr := errMsgEmpty, exitCode := 1, removeCalled := false }
  else
    match remove stdin with
    | Except.ok output =>
        { stdout := output, stderr := "", exitCode := 0, removeCalled := true }
    | Except.error e =>
        { stdout := [], stderr := errLine e, exitCode := 1, removeCalled := true }

/-- Events of one run, in the order the source performs them: consuming the
input stream, invoking the removal capability, writing the output stream,
writing a diagnostic line, terminating with a status. -/
inductive Event where
  | readInput (data : Bytes)
  | callRemove (input : Bytes) (result : Except String Bytes)
  | writeOut (data : Bytes)
  | writeErr (msg : String)
  | exitEvent (code : Nat)
deriving Repr, DecidableEq

/-- The ordered event trace of one run of the filter driver, following the
control flow of the source line by line. -/
def trace (stdin : Bytes) (remove : Bytes → Except String Bytes) : List Event :=
  Event.readInput stdin ::
    (if stdin.isEmpty then
      [Event.writeErr errMsgEmpty, Event.exitEvent 1]
    else
      match remove stdin with
      | Except.ok output =>
          [Event.callRemove stdin (Except.ok output),
           Event.writeOut output, Event.exitEvent 0]
      | Except.error e =>
          [Event.callRemove stdin (Except.error e),
           Event.writeErr (errLine e), Event.exitEvent 1])

/-- Whether an event writes to the output stream. -/
def Event.isOut : Event → Bool
  | Event.writeOut _ => true
  | _ => false

/-- Whether an event writes to the diagnostic stream. -/
def Event.isErr : Event → Bool
  | Event.writeErr _ => true
  | _ => false

/-- The eight-byte PNG file signature. -/
def pngSignature : Bytes := [137, 80, 78, 71, 13, 10, 26, 10]

/-- A buffer is PNG-encoded when it starts with the PNG signature. -/
def isPNG (b : Bytes) : Bool := decide (b.take 8 = pngSignature)

/-- A diagnostic string that starts with the error tag. -/
def startsWithError (s : String) : Prop := ∃ t, s = "Error: " ++ t

/-- Outcome of one run in the write-fallible model: diagnostic text, exit
status, and whether an exception escaped uncaught. -/
structure RunResultWF where
  stderr : String
  exitCode : Nat
  crashed : Bool
deriving Repr, DecidableEq

/-- The filter driver embedded with a fallible output-stream write: in the
source, `sys.stdout.buffer.write(output_data)` sits inside the same
try/except as the removal call, so a write failure is caught by the same
handler. `writeStdout` is an oracle for that write. -/
def mainWF (stdin : Bytes) (remove : Bytes → Except String Bytes)
    (writeStdout : Bytes → Except String Unit) : RunResultWF :=
  if stdin.isEmpty then
    { stderr := errMsgEmpty, exitCode := 1, crashed := false }
  else
    match remove stdin with
    | Except.ok output =>
        match writeStdout output with
        | Except.ok _ => { stderr := "", exitCode := 0, crashed := false }
        | Except.error e =>
            { stderr := errLine e, exitCode := 1, crashed := false }
    | Except.error e =>
        { stderr := errLine e, exitCode := 1, crashed := false }

/-- C1: on empty input the driver writes exactly the fixed diagnostic, writes
no output bytes, never invokes the removal capability, and exits with
status 1. -/
theorem emptyInputBehavior (remove : Bytes → Except String Bytes) :
    main [] remove =
      { stdout := [], stderr := "Error: No input data received\n",
        exitCode := 1, removeCalled := false } := by
  simp [main, errMsgEmpty]

/-- C2: whenever the input is non-empty and the removal capability signals an
error `e`, the driver catches it, writes `"Error: <e>\n"` to the diagnostic
stream, writes no output bytes, and exits with status 1. -/
theorem removeErrorBehavior (stdin : Bytes) (remove : Bytes → Except String Bytes)
    (e : String) (hne : stdin ≠ []) (herr : remove stdin = Except.error e) :
    main stdin remove =
      { stdout := [], stderr := "Error: " ++ (e ++ "\n"),
        exitCode := 1, removeCalled := true } := by
  simp [main, List.isEmpty_iff, hne, herr, errLine]

/-- Witness for C2 at a concrete input and failing oracle. -/
theorem removeErrorBehavior_witness :
    ([1] : Bytes) ≠ [] ∧
    (fun _ : Bytes => (Except.error "boom" : Except String Bytes)) [1] =
      Except.error "boom" ∧
    main [1] (fun _ => Except.error "boom") =
      { stdout := [], stderr := "Error: boom\n",
        exitCode := 1, removeCalled := true } := by
  refine ⟨by decide, rfl, ?_⟩
  have h := removeErrorBehavior [1] (fun _ => Except.error "boom") "boom"
    (by decide) rfl
  rw [h]
  decide

/-- C3: whenever the input is non-empty and the removal capability returns a
buffer, the driver writes exactly that buffer to the output stream, writes
nothing to the diagnostic stream, and exits with status 0. -/
theorem removeSuccessBehavior (stdin : Bytes) (remove : Bytes → Except String Bytes)
    (out : Bytes) (hne : stdin ≠ []) (hok : remove stdin = Except.ok out) :
    main stdin remove =
      { stdout := out, stderr := "", exitCode := 0, removeCalled := true } := by
  simp [main, List.isEmpty_iff, hne, hok]

/-- Witness for C3 at a concrete input and successful oracle. -/
theorem removeSuccessBehavior_witness :
    ([1] : Bytes) ≠ [] ∧
    (fun _ : Bytes => (Except.ok [2, 3] : Except String Bytes)) [1] =
      Except.ok [2, 3] ∧
    main [1] (fun _ => Except.ok [2, 3]) =
      { stdout := [2, 3], stderr := "", exitCode := 0, removeCalled := true } :=
  ⟨by decide, rfl,
    removeSuccessBehavior [1] (fun _ => Except.ok [2, 3]) [2, 3] (by decide) rfl⟩

/-- Helper: a PNG-encoded buffer is non-empty (its first eight bytes are the
signature). -/
theorem isPNG_ne_nil {b : Bytes} (h : isPNG b = true) : b ≠ [] := by
  intro hnil
  subst hnil
  simp [isPNG, pngSignature] at h

/-- C4: any write to the output stream in the run trace is preceded by the
full consumption of the input stream and by a successful removal call, and
such a write occurs only when the input is non-empty and the removal
capability returned exactly the written buffer. -/
theorem outputOnlyAfterReadAndSuccess (stdin : Bytes)
    (remove : Bytes → Except String Bytes) (i : Nat) (data : Bytes)
    (h : (trace stdin remove)[i]? = some (Event.writeOut data)) :
    stdin ≠ [] ∧ remove stdin = Except.ok data ∧
      ∃ j k, j < i ∧ k < i ∧
        (trace stdin remove)[j]? = some (Event.readInput stdin) ∧
        (trace stdin remove)[k]? =
          some (Event.callRemove stdin (Except.ok data)) := by
  unfold trace at h
  by_cases hs : stdin.isEmpty
  · rw [if_pos hs] at h
    rcases i with _ | _ | _ | i <;> simp at h
  · rw [if_neg hs] at h
    have hne : stdin ≠ [] := fun hnil => hs (by simp [hnil])
    cases hok : remove stdin with
    | ok out =>
        rw [hok] at h
        rcases i with _ | _ | _ | _ | i <;> simp at h
        subst h
        refine ⟨hne, rfl, 0, 1, by omega, by omega, ?_, ?_⟩ <;>
          simp [trace, hs, hok]
    | error e =>
        rw [hok] at h
        rcases i with _ | _ | _ | _ | i <;> simp at h

/-- Witness for C4 at a concrete trace position. -/
theorem outputOnlyAfterReadAndSuccess_witness :
    (trace [1] (fun _ => Except.ok [2]))[2]? = some (Event.writeOut [2]) ∧
    (([1] : Bytes) ≠ [] ∧
      (fun _ : Bytes => (Except.ok [2] : Except String Bytes)) [1] =
        Except.ok [2] ∧
      ∃ j k, j < 2 ∧ k < 2 ∧
        (trace [1] (fun _ => Except.ok [2]))[j]? =
          some (Event.readInput [1]) ∧
        (trace [1] (fun _ => Except.ok [2]))[k]? =
          some (Event.callRemove [1] (Except.ok [2]))) :=
  ⟨by decide,
    outputOnlyAfterReadAndSuccess [1] (fun _ => Except.ok [2]) 2 [2] (by decide)⟩

/-- C5: the exit status is 0 exactly when the run succeeded (the removal
result was written to the output stream), 1 exactly when the input was empty
or the removal capability raised, and no other status occurs. -/
theorem exitCodeIffOutcome (stdin : Bytes)
    (remove : Bytes → Except String Bytes) :
    ((main stdin remove).exitCode = 0 ↔
      stdin ≠ [] ∧ ∃ out, remove stdin = Except.ok out ∧
        (main stdin remove).stdout = out) ∧
    ((main stdin remove).exitCode = 1 ↔
      stdin = [] ∨ ∃ e, remove stdin = Except.error e) ∧
    ((main stdin remove).exitCode = 0 ∨ (main stdin remove).exitCode = 1) := by
  by_cases hs : stdin.isEmpty
  · have hnil : stdin = [] := List.isEmpty_iff.mp hs
    subst hnil
    simp [main]
  · have hne : stdin ≠ [] := fun hnil => hs (by simp [hnil])
    cases hok : remove stdin with
    | ok out => simp [main, hs, hok, hne]
    | error e => simp [main, hs, hok, hne]

/-- C6: one run writes at most one of {output buffer, diagnostic line} —
never both and never two diagnostics — and any buffer written on the output
stream is exactly the removal capability's full result. -/
theorem singleWriteDiscipline (stdin : Bytes)
    (remove : Bytes → Except String Bytes) :
    (trace stdin remove).countP Event.isOut +
      (trace stdin remove).countP Event.isErr ≤ 1 ∧
    ∀ d, Event.writeOut d ∈ trace stdin remove →
      remove stdin = Except.ok d := by
  by_cases hs : stdin.isEmpty
  · simp [trace, hs, List.countP_cons, Event.isOut, Event.isErr]
  · cases hok : remove stdin with
    | ok out =>
        constructor
        · simp [trace, hs, hok, List.countP_cons, Event.isOut, Event.isErr]
        · intro d hd
          simp [trace, hs, hok] at hd
          rw [hd]
    | error e =>
        simp [trace, hs, hok, List.countP_cons, Event.isOut, Event.isErr]

/-- C7: diagnostics always carry the error tag, and the output stream
receives either nothing or exactly the buffer the capability returned —
a valid PNG whenever the capability honours its contract. -/
theorem diagDiscipline (stdin : Bytes) (remove : Bytes → Except String Bytes)
    (hc : ∀ b out, remove b = Except.ok out → isPNG out = true) :
    ((main stdin remove).stderr = "" ∨
      startsWithError (main stdin remove).stderr) ∧
    ((main stdin remove).stdout = [] ∨
      (isPNG (main stdin remove).stdout = true ∧
        remove stdin = Except.ok (main stdin remove).stdout)) := by
  by_cases hs : stdin.isEmpty
  · have hnil : stdin = [] := List.isEmpty_iff.mp hs
    subst hnil
    refine ⟨Or.inr ⟨"No input data received\n", ?_⟩, Or.inl ?_⟩ <;>
      simp [main, errMsgEmpty]
  · have hne : stdin ≠ [] := fun hnil => hs (by simp [hnil])
    cases hok : remove stdin with
    | ok out =>
        have hm : main stdin remove =
            { stdout := out, stderr := "", exitCode := 0,
              removeCalled := true } := by
          simp [main, hs, hok]
        rw [hm]
        exact ⟨Or.inl rfl, Or.inr ⟨hc stdin out hok, rfl⟩⟩
    | error e =>
        have hm : main stdin remove =
            { stdout := [], stderr := errLine e, exitCode := 1,
              removeCalled := true } := by
          simp [main, hs, hok]
        rw [hm]
        exact ⟨Or.inr ⟨e ++ "\n", rfl⟩, Or.inl rfl⟩

/-- Witness for C7 with a contract-honouring oracle. -/
theorem diagDiscipline_witness :
    (∀ b out,
      (fun _ : Bytes => (Except.ok pngSignature : Except String Bytes)) b =
        Except.ok out → isPNG out = true) ∧
    (((main [1] (fun _ => Except.ok pngSignature)).stderr = "" ∨
      startsWithError (main [1] (fun _ => Except.ok pngSignature)).stderr) ∧
    ((main [1] (fun _ => Except.ok pngSignature)).stdout = [] ∨
      (isPNG (main [1] (fun _ => Except.ok pngSignature)).stdout = true ∧
        (fun _ : Bytes => (Except.ok pngSignature : Except String Bytes)) [1] =
          Except.ok (main [1] (fun _ => Except.ok pngSignature)).stdout))) := by
  have hc : ∀ b out,
      (fun _ : Bytes => (Except.ok pngSignature : Except String Bytes)) b =
        Except.ok out → isPNG out = true := by
    intro b out h
    simp at h
    subst h
    decide
  exact ⟨hc, diagDiscipline [1] (fun _ => Except.ok pngSignature) hc⟩

/-- C8: two runs on the same valid non-empty input, each with a capability
invocation that succeeds with a PNG-encoded buffer, both exit with status 0
and both write a non-empty PNG-encoded output buffer. -/
theorem twoRunFraming (stdin : Bytes) (r1 r2 : Bytes → Except String Bytes)
    (o1 o2 : Bytes) (hne : stdin ≠ [])
    (h1 : r1 stdin = Except.ok o1) (hp1 : isPNG o1 = true)
    (h2 : r2 stdin = Except.ok o2) (hp2 : isPNG o2 = true) :
    ((main stdin r1).exitCode = 0 ∧ (main stdin r1).stdout ≠ [] ∧
      isPNG (main stdin r1).stdout = true) ∧
    ((main stdin r2).exitCode = 0 ∧ (main stdin r2).stdout ≠ [] ∧
      isPNG (main stdin r2).stdout = true) := by
  have m1 : main stdin r1 =
      { stdout := o1, stderr := "", exitCode := 0, removeCalled := true } := by
    simp [main, List.isEmpty_iff, hne, h1]
  have m2 : main stdin r2 =
      { stdout := o2, stderr := "", exitCode := 0, removeCalled := true } := by
    simp [main, List.isEmpty_iff, hne, h2]
  rw [m1, m2]
  exact ⟨⟨rfl, isPNG_ne_nil hp1, hp1⟩, ⟨rfl, isPNG_ne_nil hp2, hp2⟩⟩

/-- Witness for C8 with two concrete oracles returning different PNGs. -/
theorem twoRunFraming_witness :
    (([1] : Bytes) ≠ [] ∧
      (fun _ : Bytes => (Except.ok pngSignature : Except String Bytes)) [1] =
        Except.ok pngSignature ∧
      isPNG pngSignature = true ∧
      (fun _ : Bytes =>
        (Except.ok (pngSignature ++ [0]) : Except String Bytes)) [1] =
          Except.ok (pngSignature ++ [0]) ∧
      isPNG (pngSignature ++ [0]) = true) ∧
    (((main [1] (fun _ => Except.ok pngSignature)).exitCode = 0 ∧
      (main [1] (fun _ => Except.ok pngSignature)).stdout ≠ [] ∧
      isPNG (main [1] (fun _ => Except.ok pngSignature)).stdout = true) ∧
    ((main [1] (fun _ => Except.ok (pngSignature ++ [0]))).exitCode = 0 ∧
      (main [1] (fun _ => Except.ok (pngSignature ++ [0]))).stdout ≠ [] ∧
      isPNG (main [1]
        (fun _ => Except.ok (pngSignature ++ [0]))).stdout = true)) :=
  ⟨⟨by decide, rfl, by decide, rfl, by decide⟩,
    twoRunFraming [1] (fun _ => Except.ok pngSignature)
      (fun _ => Except.ok (pngSignature ++ [0]))
      pngSignature (pngSignature ++ [0])
      (by decide) rfl (by decide) rfl (by decide)⟩

/-- C9: the try/except boundary also covers the output-stream write: if the
removal succeeded but writing the result raises, the driver reports
`"Error: <message>\n"` on the diagnostic stream and exits with status 1
without an uncaught exception. -/
theorem writeFailureCaught (stdin : Bytes)
    (remove : Bytes → Except String Bytes)
    (writeStdout : Bytes → Except String Unit) (out : Bytes) (e : String)
    (hne : stdin ≠ []) (hok : remove stdin = Except.ok out)
    (hw : writeStdout out = Except.error e) :
    mainWF stdin remove writeStdout =
      { stderr := "Error: " ++ (e ++ "\n"), exitCode := 1,
        crashed := false } := by
  simp [mainWF, List.isEmpty_iff, hne, hok, hw, errLine]

/-- Witness for C9 at a concrete input with a failing write oracle. -/
theorem writeFailureCaught_witness :
    (([1] : Bytes) ≠ [] ∧
      (fun _ : Bytes => (Except.ok [2] : Except String Bytes)) [1] =
        Except.ok [2] ∧
      (fun _ : Bytes => (Except.error "pipe" : Except String Unit)) [2] =
        Except.error "pipe") ∧
    mainWF [1] (fun _ => Except.ok [2]) (fun _ => Except.error "pipe") =
      { stderr := "Error: pipe\n", exitCode := 1, crashed := false } := by
  refine ⟨⟨by decide, rfl, rfl⟩, ?_⟩
  have h := writeFailureCaught [1] (fun _ => Except.ok [2])
    (fun _ => Except.error "pipe") [2] "pipe" (by decide) rfl rfl
  rw [h]
  decide

/-- C10: if the removal capability returns an empty buffer without raising,
the driver writes zero output bytes, writes no diagnostic, and still exits
with status 0. -/
theorem emptyOutputSuccess (stdin : Bytes)
    (remove : Bytes → Except String Bytes)
    (hne : stdin ≠ []) (hok : remove stdin = Except.ok []) :
    main stdin remove =
      { stdout := [], stderr := "", exitCode := 0, removeCalled := true } := by
  simp [main, List.isEmpty_iff, hne, hok]

/-- Witness for C10 at a concrete input with an empty-result oracle. -/
theorem emptyOutputSuccess_witness :
    (([1] : Bytes) ≠ [] ∧
      (fun _ : Bytes => (Except.ok [] : Except String Bytes)) [1] =
        Except.ok []) ∧
    main [1] (fun _ => Except.ok []) =
      { stdout := [], stderr := "", exitCode := 0, removeCalled := true } :=
  ⟨⟨by decide, rfl⟩,
    emptyOutputSuccess [1] (fun _ => Except.ok []) (by decide) rfl⟩

end RemoveBg
